import Mathlib

/-!
Verification of the service runtime orchestrator (mchudgins/go).

Shallow embedding of:
* the shutdown coordinator (`performGracefulShutdown`, src/unnamed/part_004),
* the listener goroutine event emission in `Run` (src/unnamed/part_005),
* the inbound interceptor chain composed in `Run` together with
  `HTTPMetricsCollector` and `HTTPAccessLogger` (src/net/server/handler),
* the `HTTPWriter` response capture (src/net/server/handler/httpWriter.go and
  src/net/server/httpWriter/writer.go),
* the circuit breaker wrappers (src/net/server/hystrix/client.go and
  src/net/server/hystrix/roundTripper.go) over a model of the external
  hystrix-go library taken from the specification,
* the health-check aggregator (`handlerWithContext`, src/unnamed/part_002).
-/

namespace GoRuntime

/-! ## Shutdown coordinator (src/unnamed/part_004) -/

/-- `sourcetype` from part_004: tags which listener produced an event. -/
inductive Sourcetype
  | interrupt
  | httpServer
  | metricsServer
  | rpcServer
  | unknown
deriving DecidableEq, Repr, Fintype

/-- Go errors relevant to the supervisor, compared by identity in the source:
`http.ErrServerClosed` is the distinguished "already closed" error, every
other error is carried as its message. -/
inductive GoError
  | errServerClosed
  | other (msg : String)
deriving DecidableEq, Repr

/-- `eventSource` from part_004: an event on the shared channel.
`err = none` models a nil error. -/
structure EventSrc where
  source : Sourcetype
  err : Option GoError
deriving DecidableEq, Repr

/-- The shutdown-relevant fields of `Config` (part_005): whether each of the
three listener objects is non-nil when `performGracefulShutdown` runs. -/
structure Config where
  httpServer : Bool
  rpcServer : Bool
  metricsServer : Bool
deriving DecidableEq, Repr

/-- The stop operations `performGracefulShutdown` launches, in source order:
http (unless the event came from it or it is nil), then rpc, then metrics. -/
def stopTargets (cfg : Config) (evtSrc : EventSrc) : List Sourcetype :=
  (if evtSrc.source ≠ Sourcetype.httpServer ∧ cfg.httpServer then [Sourcetype.httpServer] else []) ++
    (if evtSrc.source ≠ Sourcetype.rpcServer ∧ cfg.rpcServer then [Sourcetype.rpcServer] else []) ++
      (if evtSrc.source ≠ Sourcetype.metricsServer ∧ cfg.metricsServer then [Sourcetype.metricsServer] else [])

/-- The `waitEvents` counter: incremented once in each of the three guarded
branches of `performGracefulShutdown`. -/
def waitEvents (cfg : Config) (evtSrc : EventSrc) : Nat :=
  (if evtSrc.source ≠ Sourcetype.httpServer ∧ cfg.httpServer then 1 else 0) +
    (if evtSrc.source ≠ Sourcetype.rpcServer ∧ cfg.rpcServer then 1 else 0) +
      (if evtSrc.source ≠ Sourcetype.metricsServer ∧ cfg.metricsServer then 1 else 0)

/-- Which listeners are configured and running, per `cfg.xxxServer != nil`. -/
def Config.running (cfg : Config) : Sourcetype → Bool
  | Sourcetype.httpServer => cfg.httpServer
  | Sourcetype.rpcServer => cfg.rpcServer
  | Sourcetype.metricsServer => cfg.metricsServer
  | _ => false

/-- An event arriving on `errc` at a given time (seconds since the coordinator
entered its wait loop). -/
structure TimedEvent where
  time : Nat
  event : EventSrc
deriving DecidableEq, Repr

/-- How the coordinator's wait loop ends: the `for waitEvents > 0` loop falls
through (the function returns and the caller keeps running), or one of the
two timeout branches calls `os.Exit` with the given code. -/
inductive ShutdownOutcome
  | completed
  | exited (code : Nat)
deriving DecidableEq, Repr

/-- Observable actions of the coordinator. -/
inductive CoordAction
  | stopIssued (s : Sourcetype)
  | eventConsumed (e : EventSrc)
  | exitCalled (code : Nat)
deriving DecidableEq, Repr

/-- `waitDuration` in part_004: the context passed to every stop operation
carries this timeout. The `ctx.Done()` branch of the select fires when it
elapses and calls `os.Exit(2)`. -/
def ctxDeadline : Nat := 60

/-- The `time.After(waitDuration + 1*time.Second)` branch of the select: it
becomes ready one second later and calls `os.Exit(1)`. -/
def timerDeadline : Nat := 61

/-- The exit code actually produced when no further event is ready before the
timeouts: Go's select fires the branch whose channel becomes ready first, so
the earlier of the two deadlines decides. `ctx.Done()` (60s, exit 2) precedes
`time.After` (61s, exit 1). -/
def timeoutCode : Nat := if ctxDeadline ≤ timerDeadline then 2 else 1

/-- The wait loop of `performGracefulShutdown`: while `waitEvents > 0`,
consume the next event if it is ready before both timeout branches, otherwise
take the earliest timeout branch and exit. `arrivals` lists the events that
will arrive on `errc`, in arrival order. -/
def shutdownWait : Nat → List TimedEvent → ShutdownOutcome × List CoordAction
  | 0, _ => (ShutdownOutcome.completed, [])
  | Nat.succ _, [] => (ShutdownOutcome.exited timeoutCode, [CoordAction.exitCalled timeoutCode])
  | Nat.succ n, te :: rest =>
    if te.time < ctxDeadline ∧ te.time < timerDeadline then
      let r := shutdownWait n rest
      (r.1, CoordAction.eventConsumed te.event :: r.2)
    else
      (ShutdownOutcome.exited timeoutCode, [CoordAction.exitCalled timeoutCode])

/-- `performGracefulShutdown`: issue the stop operations, then run the wait
loop with `waitEvents` outstanding acknowledgements. -/
def performGracefulShutdown (cfg : Config) (evtSrc : EventSrc) (arrivals : List TimedEvent) :
    ShutdownOutcome × List CoordAction :=
  let r := shutdownWait (waitEvents cfg evtSrc) arrivals
  (r.1, (stopTargets cfg evtSrc).map CoordAction.stopIssued ++ r.2)

/-! ## Listener goroutine event emission (`Run`, src/unnamed/part_005) -/

/-- Events sent on `errc` by the http goroutine when its serve loop returns
`err`: `http.ErrServerClosed` is logged (`"http server closed."`) and not
sent; any other error is sent as `eventSource{err, httpServer}`. -/
def httpGoroutineEvents : GoError → List EventSrc
  | GoError.errServerClosed => []
  | e => [⟨Sourcetype.httpServer, some e⟩]

/-- Events sent on `errc` by the metrics goroutine when `ListenAndServe`
returns `err`: `http.ErrServerClosed` is first replaced by nil, then an
`eventSource{err, metricsServer}` is sent unconditionally. -/
def metricsGoroutineEvents (e : GoError) : List EventSrc :=
  [⟨Sourcetype.metricsServer, if e = GoError.errServerClosed then none else some e⟩]

/-! ## Response capture (`HTTPWriter`) -/

/-- The mutable per-request record of an `HTTPWriter`, shared by
src/net/server/handler/httpWriter.go and src/net/server/httpWriter/writer.go:
`statusCode` (0 until `WriteHeader` runs) and `contentLength` (bytes
accumulated by `Write`). -/
structure HTTPWriter where
  statusCode : Nat
  contentLength : Nat
deriving DecidableEq, Repr

/-- `NewHTTPWriter`: both fields start at their Go zero values. -/
def newHTTPWriter : HTTPWriter := ⟨0, 0⟩

/-- `HTTPWriter.Write`: adds `len(data)` to `contentLength`. -/
def HTTPWriter.write (l : HTTPWriter) (n : Nat) : HTTPWriter :=
  { l with contentLength := l.contentLength + n }

/-- `HTTPWriter.WriteHeader`: records the explicit status. -/
def HTTPWriter.writeHeader (l : HTTPWriter) (status : Nat) : HTTPWriter :=
  { l with statusCode := status }

/-- `HTTPWriter.StatusCode` from src/net/server/handler/httpWriter.go:
if nobody set the status but data has been written, report 200. -/
def HTTPWriter.statusCodeFn (l : HTTPWriter) : Nat :=
  if l.statusCode = 0 ∧ l.contentLength > 0 then 200 else l.statusCode

/-- `HTTPWriter.StatusCode` from src/net/server/httpWriter/writer.go, an
identical second implementation of the same method. -/
def writerPkgStatusCode (l : HTTPWriter) : Nat :=
  if l.statusCode = 0 ∧ l.contentLength > 0 then 200 else l.statusCode

/-! ## Health-check aggregator (src/unnamed/part_002) -/

/-- A registered check evaluated at a request: `none` models a nil error,
`some msg` a failing check. A check map is a list of (name, result). -/
abbrev CheckMap := List (String × Option String)

/-- `collectChecks`: each failing check overwrites `*statusOut` with 503
(`http.StatusServiceUnavailable`); passing checks leave it alone. -/
def collectChecks (checks : CheckMap) (statusIn : Nat) : Nat :=
  checks.foldl (fun acc c => match c.2 with | some _ => 503 | none => acc) statusIn

/-- `handle`: non-GET methods get 405; otherwise the status starts at 200 and
every supplied check map is collected in order. -/
def handle (method : String) (checkMaps : List CheckMap) : Nat :=
  if method ≠ "GET" then 405
  else checkMaps.foldl (fun st m => collectChecks m st) 200

/-- The health handler's two registries. -/
structure HealthHandler where
  livenessChecks : CheckMap
  readinessChecks : CheckMap

/-- `LiveEndpoint`: evaluates the liveness checks only. -/
def liveEndpoint (h : HealthHandler) (method : String) : Nat :=
  handle method [h.livenessChecks]

/-- `ReadyEndpoint`: evaluates the readiness checks and the liveness checks. -/
def readyEndpoint (h : HealthHandler) (method : String) : Nat :=
  handle method [h.readinessChecks, h.livenessChecks]

/-! ## Inbound interceptor chain (`Run` lines 400-432, handler package) -/

/-- Observable phases of one request's trip through the interceptor chain. -/
inductive Phase
  | requestsReceivedInc
  | captureInstall
  | corrIDAssign
  | accessLogEmit
  | metricsRecord
  | rateLimitCheck
  | handlerStep (n : Nat)
deriving DecidableEq, Repr

/-- Pipeline state: whether an `*HTTPWriter` has already been injected
(`w.(*HTTPWriter)` succeeds downstream), and the ordered trace of phases. -/
structure PipeState where
  writerInstalled : Bool
  trace : List Phase
deriving DecidableEq, Repr

/-- An `http.Handler` over the pipeline state. -/
def PHandler := PipeState → PipeState

/-- An alice constructor, `func(http.Handler) http.Handler`. -/
def Middleware := PHandler → PHandler

/-- `HTTPMetricsCollector` (promMetrics.go): increments the received counter,
injects an `HTTPWriter` if the writer is not already one, defers the metrics
recording (which reads `StatusCode`/`Length`), and calls the inner handler. -/
def HTTPMetricsCollector : Middleware := fun fn st =>
  let st1 : PipeState := { st with trace := st.trace ++ [Phase.requestsReceivedInc] }
  let st2 : PipeState :=
    if st1.writerInstalled then st1
    else { writerInstalled := true, trace := st1.trace ++ [Phase.captureInstall] }
  let st3 := fn st2
  { st3 with trace := st3.trace ++ [Phase.metricsRecord] }

/-- `HTTPAccessLogger` (accessLogger.go): assigns the correlation id, injects
an `HTTPWriter` if the writer is not already one, defers the access-log
record (which reads `StatusCode`/`Length`), and calls the inner handler. -/
def HTTPAccessLogger : Middleware := fun h st =>
  let st1 : PipeState := { st with trace := st.trace ++ [Phase.corrIDAssign] }
  let st2 : PipeState :=
    if st1.writerInstalled then st1
    else { writerInstalled := true, trace := st1.trace ++ [Phase.captureInstall] }
  let st3 := h st2
  { st3 with trace := st3.trace ++ [Phase.accessLogEmit] }

/-- `alice.New(c1, ..., cn).Then(h)` applies the constructors right to left,
so the first constructor is outermost. -/
def aliceThen (chain : List Middleware) (h : PHandler) : PHandler :=
  chain.foldr (fun m acc => m acc) h

/-- The chain composed in `Run` for the plain http listener (base
configuration, no canonical-host redirect, no compression):
`alice.New(gsh.HTTPMetricsCollector, gsh.HTTPAccessLogger(cfg.logger))`. -/
def runHTTPChain (inner : PHandler) : PHandler :=
  aliceThen [HTTPMetricsCollector, HTTPAccessLogger] inner

/-- An inner request handler that performs the given steps (the root mux and
application handler never touch the injected writer wrapper). -/
def appendHandler (l : List Phase) : PHandler :=
  fun st => { st with trace := st.trace ++ l }

/-- Initial pipeline state: the net/http `ResponseWriter` handed to the chain
is not an `*HTTPWriter`, and nothing has been traced. -/
def initPipeState : PipeState := ⟨false, []⟩

/-- Defined from the specification's words, for comparison with the chain
composed by the source: the claimed fixed order of the interceptor chain,
correlation-id assignment, then response-capture installation, then metrics
recording, then access logging, then rate limiting. -/
def specClaimedOrder (tr : List Phase) : Prop :=
  ∃ i1 i2 i3 i4 i5 : Fin tr.length,
    i1 < i2 ∧ i2 < i3 ∧ i3 < i4 ∧ i4 < i5 ∧
      tr.get i1 = Phase.corrIDAssign ∧ tr.get i2 = Phase.captureInstall ∧
        tr.get i3 = Phase.metricsRecord ∧ tr.get i4 = Phase.accessLogEmit ∧
          tr.get i5 = Phase.rateLimitCheck

/-! ## Circuit breaker wrappers (src/net/server/hystrix) -/

/-- Modelled from the spec: the binary breaker state of the external
hystrix-go library, one of Closed, Open, HalfOpen. -/
inductive BreakerState
  | closed
  | opened
  | halfOpen
deriving DecidableEq, Repr

/-- Modelled from the spec: the admission-relevant state of one hystrix
command: its breaker state and whether the cool-down interval has elapsed. -/
structure CommandState where
  state : BreakerState
  cooldownElapsed : Bool
deriving DecidableEq, Repr

/-- Modelled from the spec: hystrix admission short-circuits exactly when the
command is Open and the cool-down has not elapsed; the run function is then
never invoked and the fallback receives the short-circuit error. -/
def hystrixShortCircuits (c : CommandState) : Bool :=
  (c.state = BreakerState.opened) ∧ ¬c.cooldownElapsed

/-- The short-circuit error hystrix hands to the fallback. -/
def circuitOpenMsg : String := "hystrix: circuit open"

/-- Result of the wrapped work `fn() (*http.Response, error)`: either a
response with a status code, or a non-nil error. -/
inductive WorkResult
  | ok (status : Nat)
  | err (e : String)
deriving DecidableEq, Repr

/-- What the caller of `circuitBreaker` / `circuitBreak` observes from the
final `select` over the two local channels. -/
inductive CallOutcome
  | blocked
  | ok (status : Nat)
  | err (e : String)
deriving DecidableEq, Repr

/-- One outbound breaker call, fully observed. The fallback in client.go and
roundTripper.go logs and returns its argument unchanged, so its return value
equals `fallbackArg`. -/
structure ClientCall where
  workInvoked : Bool
  fallbackArg : Option String
  recordedFailure : Bool
  outcome : CallOutcome
deriving DecidableEq, Repr

/-- `circuitBreaker` (client.go): under `hystrix.Go`, if the command
short-circuits the run function never executes and neither local channel is
written, so the final select blocks; otherwise the run function sends the
error or the response on a local channel and additionally reports
`fmt.Errorf("error %d", status)` to hystrix when the status is exactly
`http.StatusInternalServerError` (500). -/
def circuitBreaker (cmd : CommandState) (work : WorkResult) : ClientCall :=
  if hystrixShortCircuits cmd then
    { workInvoked := false, fallbackArg := some circuitOpenMsg,
      recordedFailure := false, outcome := CallOutcome.blocked }
  else
    match work with
    | WorkResult.err e =>
      { workInvoked := true, fallbackArg := some e,
        recordedFailure := true, outcome := CallOutcome.err e }
    | WorkResult.ok status =>
      if status = 500 then
        { workInvoked := true, fallbackArg := some ("error " ++ toString status),
          recordedFailure := true, outcome := CallOutcome.ok status }
      else
        { workInvoked := true, fallbackArg := none,
          recordedFailure := false, outcome := CallOutcome.ok status }

/-- `Transport.circuitBreak` (roundTripper.go): textually the same logic as
`circuitBreaker`, wrapping `transport.RoundTrip`. -/
def circuitBreak (cmd : CommandState) (work : WorkResult) : ClientCall :=
  if hystrixShortCircuits cmd then
    { workInvoked := false, fallbackArg := some circuitOpenMsg,
      recordedFailure := false, outcome := CallOutcome.blocked }
  else
    match work with
    | WorkResult.err e =>
      { workInvoked := true, fallbackArg := some e,
        recordedFailure := true, outcome := CallOutcome.err e }
    | WorkResult.ok status =>
      if status = 500 then
        { workInvoked := true, fallbackArg := some ("error " ++ toString status),
          recordedFailure := true, outcome := CallOutcome.ok status }
      else
        { workInvoked := true, fallbackArg := none,
          recordedFailure := false, outcome := CallOutcome.ok status }

/-- One inbound breaker call through `hystrixHelper.Handler`. `doResult` is
the error `hystrix.Do` returns to the `HandlerFunc`; the fallback there
returns nil, so a rejected or failed call yields `doResult = none`. -/
structure HandlerCall where
  workInvoked : Bool
  fallbackArg : Option String
  recordedFailure : Bool
  doResult : Option String
deriving DecidableEq, Repr

/-- `hystrixHelper.Handler` (roundTripper.go): the run function serves the
request on an injected `HTTPWriter` monitor and reports
`fmt.Errorf("failure contacting %s", name)` when the captured status is 5xx;
the fallback logs and returns nil. `capturedStatus` is
`monitor.StatusCode()` after the inner handler ran. -/
def handlerBreaker (cmd : CommandState) (commandName : String) (capturedStatus : Nat) : HandlerCall :=
  if hystrixShortCircuits cmd then
    { workInvoked := false, fallbackArg := some circuitOpenMsg,
      recordedFailure := false, doResult := none }
  else if 500 ≤ capturedStatus ∧ capturedStatus < 600 then
    { workInvoked := true, fallbackArg := some ("failure contacting " ++ commandName),
      recordedFailure := true, doResult := none }
  else
    { workInvoked := true, fallbackArg := none,
      recordedFailure := false, doResult := none }

/-! ## Theorems -/

/-- C7: for every triggering Event, `performGracefulShutdown` never issues a
stop to the listener identified by the Event's source, issues one to exactly
the configured, still-running listeners with a different source, and the
`waitEvents` counter equals the number of stop operations issued. -/
theorem stop_targets_exclude_trigger (cfg : Config) (evtSrc : EventSrc) :
    evtSrc.source ∉ stopTargets cfg evtSrc ∧
      (∀ s, s ∈ stopTargets cfg evtSrc ↔ (cfg.running s = true ∧ s ≠ evtSrc.source)) ∧
        waitEvents cfg evtSrc = (stopTargets cfg evtSrc).length := by
  obtain ⟨hh, hr, hm⟩ := cfg
  obtain ⟨src, e⟩ := evtSrc
  have hsrc : (⟨src, e⟩ : EventSrc).source = src := rfl
  have hst : stopTargets ⟨hh, hr, hm⟩ ⟨src, e⟩ = stopTargets ⟨hh, hr, hm⟩ ⟨src, none⟩ := rfl
  have hwe : waitEvents ⟨hh, hr, hm⟩ ⟨src, e⟩ = waitEvents ⟨hh, hr, hm⟩ ⟨src, none⟩ := rfl
  rw [hsrc, hst, hwe]
  cases src <;> cases hh <;> cases hr <;> cases hm <;> decide

/-- Witness for C7 at a concrete configuration and triggering event. -/
theorem stop_targets_exclude_trigger_witness :
    Sourcetype.metricsServer ∉ stopTargets ⟨true, true, true⟩ ⟨Sourcetype.metricsServer, some (GoError.other "boom")⟩ :=
  (stop_targets_exclude_trigger ⟨true, true, true⟩ ⟨Sourcetype.metricsServer, some (GoError.other "boom")⟩).1

theorem shutdownWait_no_stops (n : Nat) (evts : List TimedEvent) (s : Sourcetype) :
    CoordAction.stopIssued s ∉ (shutdownWait n evts).2 := by
  induction n generalizing evts with
  | zero => simp [shutdownWait]
  | succ k ih =>
    cases evts with
    | nil => simp [shutdownWait]
    | cons te rest =>
      by_cases h : te.time < ctxDeadline ∧ te.time < timerDeadline
      · simp only [shutdownWait, if_pos h, List.mem_cons]
        rintro (hc | hc)
        · exact absurd hc (by simp)
        · exact ih rest hc
      · simp [shutdownWait, if_neg h]

/-- C8: once shutdown is underway, the wait loop never issues another stop
operation, and consuming any further event (nil or non-nil error alike) just
decrements the outstanding wait count by one. -/
theorem shutdown_idempotent_bookkeeping (n : Nat) (evts : List TimedEvent)
    (te : TimedEvent) (rest : List TimedEvent) :
    (∀ s, CoordAction.stopIssued s ∉ (shutdownWait n evts).2) ∧
      (te.time < ctxDeadline →
        shutdownWait (n + 1) (te :: rest) =
          ((shutdownWait n rest).1, CoordAction.eventConsumed te.event :: (shutdownWait n rest).2)) := by
  refine ⟨fun s => shutdownWait_no_stops n evts s, fun h => ?_⟩
  have h2 : te.time < timerDeadline := by
    unfold ctxDeadline at h
    unfold timerDeadline
    omega
  simp [shutdownWait, h, h2]

/-- Witness for C8: consuming an errored event and a clean event each
decrement the count without new stop operations. -/
theorem shutdown_idempotent_bookkeeping_witness :
    shutdownWait (1 + 1)
        (⟨5, ⟨Sourcetype.metricsServer, some (GoError.other "boom")⟩⟩ ::
          [⟨6, ⟨Sourcetype.httpServer, none⟩⟩]) =
      ((shutdownWait 1 [⟨6, ⟨Sourcetype.httpServer, none⟩⟩]).1,
        CoordAction.eventConsumed ⟨Sourcetype.metricsServer, some (GoError.other "boom")⟩ ::
          (shutdownWait 1 [⟨6, ⟨Sourcetype.httpServer, none⟩⟩]).2) :=
  (shutdown_idempotent_bookkeeping 1 []
      ⟨5, ⟨Sourcetype.metricsServer, some (GoError.other "boom")⟩⟩
      [⟨6, ⟨Sourcetype.httpServer, none⟩⟩]).2 (by decide)

/-- C1 (code bug): with two listeners to wait for, if all acknowledgements
arrive before the 60s deadline the coordinator completes without exiting;
but when one listener never acknowledges, the branch that fires at the
deadline is `ctx.Done()`, which calls `os.Exit(2)` — the `os.Exit(1)` branch
sits behind the later 61s timer and can never win the select. -/
theorem shutdown_timeout_eval :
    (performGracefulShutdown ⟨true, false, true⟩ ⟨Sourcetype.interrupt, none⟩
          [⟨1, ⟨Sourcetype.httpServer, none⟩⟩, ⟨2, ⟨Sourcetype.metricsServer, none⟩⟩]).1 =
        ShutdownOutcome.completed ∧
      (performGracefulShutdown ⟨true, false, true⟩ ⟨Sourcetype.interrupt, none⟩
            [⟨1, ⟨Sourcetype.httpServer, none⟩⟩]).1 = ShutdownOutcome.exited 2 ∧
        timeoutCode = 2 := by
  decide

/-- C4 counterexample: when the metrics listener's serve loop ends with
`http.ErrServerClosed`, an Event is still sent on the shared channel (with a
nil error) — the termination is not merely logged. -/
theorem metrics_closed_event_cx :
    metricsGoroutineEvents GoError.errServerClosed = [⟨Sourcetype.metricsServer, none⟩] ∧
      metricsGoroutineEvents GoError.errServerClosed ≠ [] := by
  decide

/-- C4 amended: the http listener suppresses `http.ErrServerClosed` (logs,
sends nothing) and sends `Event{source, err}` exactly once for any other
error; the metrics listener always sends exactly one Event, with the error
replaced by nil when it is `http.ErrServerClosed`. -/
theorem listener_exit_events (e : GoError) :
    httpGoroutineEvents GoError.errServerClosed = [] ∧
      (e ≠ GoError.errServerClosed → httpGoroutineEvents e = [⟨Sourcetype.httpServer, some e⟩]) ∧
        metricsGoroutineEvents GoError.errServerClosed = [⟨Sourcetype.metricsServer, none⟩] ∧
          (e ≠ GoError.errServerClosed →
            metricsGoroutineEvents e = [⟨Sourcetype.metricsServer, some e⟩]) := by
  refine ⟨rfl, ?_, rfl, ?_⟩
  · intro h
    cases e with
    | errServerClosed => exact absurd rfl h
    | other msg => rfl
  · intro h
    simp [metricsGoroutineEvents, h]

/-- Witness for C4's amended claim at a concrete bind failure. -/
theorem listener_exit_events_witness :
    httpGoroutineEvents (GoError.other "bind: address in use") =
        [⟨Sourcetype.httpServer, some (GoError.other "bind: address in use")⟩] ∧
      metricsGoroutineEvents (GoError.other "bind: address in use") =
        [⟨Sourcetype.metricsServer, some (GoError.other "bind: address in use")⟩] :=
  ⟨(listener_exit_events (GoError.other "bind: address in use")).2.1 (by decide),
    (listener_exit_events (GoError.other "bind: address in use")).2.2.2 (by decide)⟩

/-- C9: both `StatusCode` implementations agree; with no explicit status the
effective status is 200 exactly when bytes were written, and an explicit
status is returned unchanged. -/
theorem statusCode_effective (w : HTTPWriter) :
    (w.statusCode = 0 → (HTTPWriter.statusCodeFn w = 200 ↔ 0 < w.contentLength)) ∧
      (w.statusCode ≠ 0 → HTTPWriter.statusCodeFn w = w.statusCode) ∧
        writerPkgStatusCode w = HTTPWriter.statusCodeFn w := by
  obtain ⟨sc, len⟩ := w
  refine ⟨?_, ?_, rfl⟩
  · intro h
    subst h
    by_cases hl : 0 < len
    · simp [HTTPWriter.statusCodeFn, hl]
    · simp [HTTPWriter.statusCodeFn, hl]
  · intro h
    simp [HTTPWriter.statusCodeFn, h]

/-- Witness for C9: a body-only response reports 200; an explicit 404 is
returned unchanged. -/
theorem statusCode_effective_witness :
    (HTTPWriter.statusCodeFn ⟨0, 17⟩ = 200 ↔ 0 < 17) ∧
      HTTPWriter.statusCodeFn ⟨404, 3⟩ = 404 :=
  ⟨(statusCode_effective ⟨0, 17⟩).1 rfl,
    (statusCode_effective ⟨404, 3⟩).2.1 (by decide)⟩

theorem collectChecks_eq (m : CheckMap) (st : Nat) :
    collectChecks m st = if m.any (fun c => c.2.isSome) then 503 else st := by
  induction m generalizing st with
  | nil => simp [collectChecks]
  | cons c rest ih =>
    obtain ⟨name, res⟩ := c
    cases res with
    | none =>
      have hstep : collectChecks ((name, none) :: rest) st = collectChecks rest st := by
        simp [collectChecks]
      rw [hstep, ih st, List.any_cons]
      rfl
    | some msg =>
      have hstep : collectChecks ((name, some msg) :: rest) st = collectChecks rest 503 := by
        simp [collectChecks]
      rw [hstep, ih 503, List.any_cons]
      simp

/-- C10: with at least one failing liveness check and all readiness checks
passing, `GET /healthz/ready` still returns 503 (it evaluates the union of
both registries), while `GET /healthz/live` depends on the liveness checks
only. -/
theorem ready_aggregates_liveness (h : HealthHandler)
    (hfail : h.livenessChecks.any (fun c => c.2.isSome) = true)
    (hready : h.readinessChecks.any (fun c => c.2.isSome) = false) :
    readyEndpoint h "GET" = 503 ∧ liveEndpoint h "GET" = 503 ∧
      ∀ r : CheckMap, liveEndpoint ⟨h.livenessChecks, r⟩ "GET" = liveEndpoint h "GET" := by
  refine ⟨?_, ?_, fun r => rfl⟩
  · show handle "GET" [h.readinessChecks, h.livenessChecks] = 503
    simp [handle, collectChecks_eq, hfail, hready]
  · show handle "GET" [h.livenessChecks] = 503
    simp [handle, collectChecks_eq, hfail]

/-- Witness for C10 with one failing liveness check and one passing
readiness check. -/
theorem ready_aggregates_liveness_witness :
    readyEndpoint ⟨[("goroutine-threshold", some "too many goroutines")], [("upstream", none)]⟩
        "GET" = 503 :=
  (ready_aggregates_liveness
      ⟨[("goroutine-threshold", some "too many goroutines")], [("upstream", none)]⟩
      (by decide) (by decide)).1

/-- C5 counterexample: the chain actually composed in `Run` produces the
trace metrics-entry, capture-install, correlation-id, inner handler,
access-log, metrics-record — the claimed fixed order (correlation id before
capture install, and a final rate-limiting interceptor) does not hold: there
is no rate limiter and the correlation id is assigned after the capture is
installed. -/
theorem chain_order_cx :
    (runHTTPChain (appendHandler [Phase.handlerStep 0]) initPipeState).trace =
        [Phase.requestsReceivedInc, Phase.captureInstall, Phase.corrIDAssign,
          Phase.handlerStep 0, Phase.accessLogEmit, Phase.metricsRecord] ∧
      ¬specClaimedOrder ((runHTTPChain (appendHandler [Phase.handlerStep 0]) initPipeState).trace) := by
  constructor
  · rfl
  · unfold specClaimedOrder
    decide

/-- C5 amended: the chain composed at startup is `HTTPMetricsCollector`
outermost then `HTTPAccessLogger`; the metrics interceptor installs the
ResponseCapture wrapper before the correlation id is assigned (inside the
access logger) and before either interceptor reads status/length after the
inner handler returns; there is no rate-limiting interceptor. -/
theorem chain_actual_order (l : List Phase) :
    runHTTPChain (appendHandler l) initPipeState =
      ⟨true,
        [Phase.requestsReceivedInc, Phase.captureInstall, Phase.corrIDAssign] ++ l ++
          [Phase.accessLogEmit, Phase.metricsRecord]⟩ := by
  simp [runHTTPChain, aliceThen, HTTPMetricsCollector, HTTPAccessLogger, appendHandler,
    initPipeState]

/-- Witness for C5's amended claim with a two-step inner handler. -/
theorem chain_actual_order_witness :
    runHTTPChain (appendHandler [Phase.handlerStep 1, Phase.handlerStep 2]) initPipeState =
      ⟨true,
        [Phase.requestsReceivedInc, Phase.captureInstall, Phase.corrIDAssign] ++
          [Phase.handlerStep 1, Phase.handlerStep 2] ++
            [Phase.accessLogEmit, Phase.metricsRecord]⟩ :=
  chain_actual_order [Phase.handlerStep 1, Phase.handlerStep 2]

/-- C2 (code bug): with the command Open and the cool-down not elapsed, none
of the three wrappers invokes the wrapped work; the inbound handler wrapper
returns at once (with the error swallowed), but in the outbound client and
transport wrappers neither local channel is ever written, so the final
select blocks and the caller never receives the short-circuit error. -/
theorem open_breaker_eval :
    (circuitBreaker ⟨BreakerState.opened, false⟩ (WorkResult.ok 200)).workInvoked = false ∧
      (circuitBreaker ⟨BreakerState.opened, false⟩ (WorkResult.ok 200)).outcome =
          CallOutcome.blocked ∧
        (circuitBreak ⟨BreakerState.opened, false⟩ (WorkResult.ok 200)).outcome =
            CallOutcome.blocked ∧
          (handlerBreaker ⟨BreakerState.opened, false⟩ "backend" 200).workInvoked = false ∧
            (handlerBreaker ⟨BreakerState.opened, false⟩ "backend" 200).doResult = none := by
  decide

/-- C3 counterexample: an admitted inbound call whose captured status is 503
is recorded as a failure and the fallback is invoked, yet `hystrix.Do`
returns nil (the fallback returns nil), so the failure is silently
swallowed rather than surfaced as the effective error. -/
theorem handler_swallow_cx :
    (handlerBreaker ⟨BreakerState.closed, true⟩ "backend" 503).recordedFailure = true ∧
      (handlerBreaker ⟨BreakerState.closed, true⟩ "backend" 503).fallbackArg ≠ none ∧
        (handlerBreaker ⟨BreakerState.closed, true⟩ "backend" 503).doResult = none := by
  decide

/-- C3 amended: the fallback is invoked with the error on every rejected or
failed call; in the outbound wrappers the caller receives the work's own
error via the local channel when the work ran, and nothing at all on a
rejection; in the inbound handler wrapper the fallback returns nil, so the
effective error of `hystrix.Do` is always nil and failures are only
logged. -/
theorem fallback_effective_error (cmd : CommandState) (e : String) (s : Nat) (name : String) :
    ((circuitBreaker cmd (WorkResult.err e)).workInvoked = true →
        (circuitBreaker cmd (WorkResult.err e)).fallbackArg = some e ∧
          (circuitBreaker cmd (WorkResult.err e)).outcome = CallOutcome.err e) ∧
      (hystrixShortCircuits cmd = true →
          (circuitBreaker cmd (WorkResult.ok s)).fallbackArg = some circuitOpenMsg ∧
            (circuitBreaker cmd (WorkResult.ok s)).outcome = CallOutcome.blocked ∧
              (handlerBreaker cmd name s).fallbackArg = some circuitOpenMsg) ∧
        ((handlerBreaker cmd name s).recordedFailure = true →
            (handlerBreaker cmd name s).fallbackArg ≠ none) ∧
          (handlerBreaker cmd name s).doResult = none := by
  by_cases hsc : hystrixShortCircuits cmd = true
  · simp [circuitBreaker, handlerBreaker, hsc]
  · by_cases h5 : 500 ≤ s ∧ s < 600
    · simp [circuitBreaker, handlerBreaker, hsc, h5]
    · simp [circuitBreaker, handlerBreaker, hsc, h5]

/-- Witness for C3's amended claim: a failed outbound call surfaces its own
error; a short-circuited outbound call blocks. -/
theorem fallback_effective_error_witness :
    (circuitBreaker ⟨BreakerState.closed, true⟩ (WorkResult.err "connection refused")).fallbackArg =
        some "connection refused" ∧
      (circuitBreaker ⟨BreakerState.opened, false⟩ (WorkResult.ok 200)).outcome =
        CallOutcome.blocked :=
  ⟨((fallback_effective_error ⟨BreakerState.closed, true⟩ "connection refused" 0 "n").1
      (by decide)).1,
    ((fallback_effective_error ⟨BreakerState.opened, false⟩ "x" 200 "n").2.1 (by decide)).2.1⟩

/-- C6 counterexample: a 503 response is within 5xx, yet the outbound client
wrapper records it as a success while the inbound handler wrapper records it
as a failure — the three call shapes do not share the any-5xx failure
rule. -/
theorem outbound_503_cx :
    (500 ≤ 503 ∧ 503 < 600) ∧
      (circuitBreaker ⟨BreakerState.closed, true⟩ (WorkResult.ok 503)).workInvoked = true ∧
        (circuitBreaker ⟨BreakerState.closed, true⟩ (WorkResult.ok 503)).recordedFailure = false ∧
          (handlerBreaker ⟨BreakerState.closed, true⟩ "backend2" 503).recordedFailure = true := by
  decide

/-- C6 amended: the outbound client and transport wrappers are identical and
record a failure for a non-nil work error or a response status of exactly
500; the inbound handler wrapper records a failure for any 5xx captured
status; all three agree on non-nil work errors. -/
theorem failure_recording_rules (cmd : CommandState) (e : String) (s : Nat) (name : String) :
    circuitBreak cmd (WorkResult.ok s) = circuitBreaker cmd (WorkResult.ok s) ∧
      circuitBreak cmd (WorkResult.err e) = circuitBreaker cmd (WorkResult.err e) ∧
        ((circuitBreaker cmd (WorkResult.err e)).workInvoked = true →
            (circuitBreaker cmd (WorkResult.err e)).recordedFailure = true) ∧
          ((circuitBreaker cmd (WorkResult.ok s)).workInvoked = true →
              ((circuitBreaker cmd (WorkResult.ok s)).recordedFailure = true ↔ s = 500)) ∧
            ((handlerBreaker cmd name s).workInvoked = true →
                ((handlerBreaker cmd name s).recordedFailure = true ↔ (500 ≤ s ∧ s < 600))) := by
  refine ⟨rfl, rfl, ?_, ?_, ?_⟩
  · by_cases hsc : hystrixShortCircuits cmd = true <;> simp [circuitBreaker, hsc]
  · by_cases hsc : hystrixShortCircuits cmd = true <;>
      by_cases h5 : s = 500 <;> simp [circuitBreaker, hsc, h5]
  · by_cases hsc : hystrixShortCircuits cmd = true <;>
      by_cases h5 : 500 ≤ s ∧ s < 600 <;> simp [handlerBreaker, hsc, h5]

/-- Witness for C6's amended claim: an admitted 500 response is a failure in
the outbound wrapper, and an admitted 504 is a failure in the inbound
wrapper. -/
theorem failure_recording_rules_witness :
    ((circuitBreaker ⟨BreakerState.closed, true⟩ (WorkResult.ok 500)).recordedFailure = true ↔
        (500 : Nat) = 500) ∧
      ((handlerBreaker ⟨BreakerState.closed, true⟩ "n" 504).recordedFailure = true ↔
        (500 ≤ 504 ∧ 504 < 600)) :=
  ⟨(failure_recording_rules ⟨BreakerState.closed, true⟩ "x" 500 "n").2.2.2.1 (by decide),
    (failure_recording_rules ⟨BreakerState.closed, true⟩ "x" 504 "n").2.2.2.2 (by decide)⟩

end GoRuntime
